import Mathlib

/-!
Shallow embedding of `src/prefect_azure/cosmos_db.py`.

The module under verification is a thin adapter: a helper
`_get_container_client(azure_credentials, container, database)` and three
task wrappers (`cosmos_db_query_items`, `cosmos_db_read_item`,
`cosmos_db_create_item`) that forward their arguments to an Azure Cosmos DB
client object and return whatever the client produces.

The external world (the credential object, the Cosmos client, the database
client, the container client) is modelled as an environment `Env` that
answers every method call with either a value or a raised exception.  Each
Python function body is embedded as a Lean function from the environment and
the arguments to the pair of
  - the outcome (`Except PyExc PyVal`: a returned value or a propagated
    exception), and
  - the trace of method calls the body performed on external objects, in
    order, with their exact receivers, positional arguments and keyword
    arguments.
Logging statements (`get_run_logger` / `logger.info`) touch no external
service object and produce no value used by the body, so they do not appear
in the call trace; every other operation of each body is represented.
-/

/-- Python values passed through this layer.  The adapter treats values
opaquely, so the embedding only needs enough structure to distinguish the
shapes the source mentions: `None`, strings, integers, lists, dicts
(keyed records such as items and query parameters), and opaque SDK objects
(`ContainerProxy`, `DatabaseProxy`, client handles, lazy result iterables),
identified by a handle number. -/
inductive PyVal : Type where
  | none : PyVal
  | str : String → PyVal
  | int : Int → PyVal
  | list : List PyVal → PyVal
  | dict : List (String × PyVal) → PyVal
  | obj : Nat → PyVal

/-- A Python exception value, carried opaquely: the embedding never inspects
exception contents, mirroring the source, which contains no try/except. -/
structure PyExc where
  exc : PyVal

/-- One method call on an external object: receiver object, method name,
positional arguments, and keyword arguments in order. -/
structure MethodCall where
  receiver : PyVal
  method : String
  args : List PyVal
  kwargs : List (String × PyVal)

/-- The external world: how the credential object and the SDK client objects
answer each method call.  A call either returns a value or raises. -/
structure Env where
  respond : MethodCall → Except PyExc PyVal

/-- Perform one method call against the environment, recording it in the
trace. -/
def pyCall (env : Env) (recv : PyVal) (method : String) (args : List PyVal)
    (kwargs : List (String × PyVal)) : Except PyExc PyVal × List MethodCall :=
  (env.respond ⟨recv, method, args, kwargs⟩, [⟨recv, method, args, kwargs⟩])

/-- Sequence two traced computations: a raised exception short-circuits,
exactly as an uncaught Python exception aborts the rest of the body; the
traces concatenate. -/
def pySeq {α β : Type} (x : Except PyExc α × List MethodCall)
    (f : α → Except PyExc β × List MethodCall) :
    Except PyExc β × List MethodCall :=
  match x.1 with
  | Except.error e => (Except.error e, x.2)
  | Except.ok a => ((f a).1, x.2 ++ (f a).2)

/-- Embedding of `_get_container_client` (cosmos_db.py lines 14-21):

    cosmos_db_client = azure_credentials.get_client()
    database_client = cosmos_db_client.get_database_client(database)
    container_client = database_client.get_container_client(container)
    return container_client
-/
def get_container_client (env : Env)
    (azure_credentials container database : PyVal) :
    Except PyExc PyVal × List MethodCall :=
  pySeq (pyCall env azure_credentials "get_client" [] []) fun cosmos_db_client =>
  pySeq (pyCall env cosmos_db_client "get_database_client" [database] []) fun database_client =>
  pyCall env database_client "get_container_client" [container] []

/-- Embedding of the body of `cosmos_db_query_items` (lines 88-96):

    container_client = _get_container_client(azure_credentials, container, database)
    query_items = partial(
        container_client.query_items, query, parameters=parameters, **kwargs
    )
    results = await to_thread.run_sync(query_items)
    return results

`functools.partial` freezes the call; `to_thread.run_sync` then performs it
once on a worker thread, so the SDK receives exactly one `query_items` call
with `query` positional, the `parameters` keyword (always present, also when
it is the default `None`), and the forwarded `kwargs`.  The `partition_key`
parameter of the wrapper is bound but never used by the body, which is why it
does not occur on the right-hand side.  (A caller passing a `parameters` key
inside `kwargs` would already fail at the `partial` construction with a
duplicate-keyword `TypeError`; theorems about the forwarded call therefore
assume `kwargs` carries no `parameters` key.) -/
def cosmos_db_query_items (env : Env) (query : PyVal)
    (container database azure_credentials : PyVal)
    (parameters : PyVal) (partition_key : PyVal)
    (kwargs : List (String × PyVal)) : Except PyExc PyVal × List MethodCall :=
  pySeq (get_container_client env azure_credentials container database)
    fun container_client =>
      pyCall env container_client "query_items" [query]
        (("parameters", parameters) :: kwargs)

/-- Embedding of the body of `cosmos_db_read_item` (lines 163-166):

    container_client = _get_container_client(azure_credentials, container, database)
    read_item = partial(container_client.read_item, item, partition_key, **kwargs)
    result = await to_thread.run_sync(read_item)
    return result
-/
def cosmos_db_read_item (env : Env) (item partition_key : PyVal)
    (container database azure_credentials : PyVal)
    (kwargs : List (String × PyVal)) : Except PyExc PyVal × List MethodCall :=
  pySeq (get_container_client env azure_credentials container database)
    fun container_client =>
      pyCall env container_client "read_item" [item, partition_key] kwargs

/-- Embedding of the body of `cosmos_db_create_item` (lines 237-240) as the
data flow the body text denotes:

    container_client = _get_container_client(azure_credentials, container, database)
    create_item = partial(container_client.create_item, body, **kwargs)
    result = await to_thread.run_sync(create_item)
    return result

Note the enclosing function is declared `def`, not `async def`, while this
body contains `await`; that defect of the declaration is modelled separately
by `createItemDef` below.  This definition captures what the body text
forwards. -/
def cosmos_db_create_item_body (env : Env) (body : PyVal)
    (container database azure_credentials : PyVal)
    (kwargs : List (String × PyVal)) : Except PyExc PyVal × List MethodCall :=
  pySeq (get_container_client env azure_credentials container database)
    fun container_client =>
      pyCall env container_client "create_item" [body] kwargs

/-- Abbreviation for the first resolution call the helper makes. -/
def credCall (azure_credentials : PyVal) : MethodCall :=
  ⟨azure_credentials, "get_client", [], []⟩

/-- Abbreviation for the second resolution call the helper makes. -/
def dbCall (cosmos_db_client database : PyVal) : MethodCall :=
  ⟨cosmos_db_client, "get_database_client", [database], []⟩

/-- Abbreviation for the third resolution call the helper makes. -/
def contCall (database_client container : PyVal) : MethodCall :=
  ⟨database_client, "get_container_client", [container], []⟩

/-- The `query_items` call the query wrapper performs. -/
def queryCall (container_client query parameters : PyVal)
    (kwargs : List (String × PyVal)) : MethodCall :=
  ⟨container_client, "query_items", [query], ("parameters", parameters) :: kwargs⟩

/-- The `read_item` call the read wrapper performs. -/
def readCall (container_client item partition_key : PyVal)
    (kwargs : List (String × PyVal)) : MethodCall :=
  ⟨container_client, "read_item", [item, partition_key], kwargs⟩

/-- The `create_item` call the create wrapper body performs. -/
def createCall (container_client body : PyVal)
    (kwargs : List (String × PyVal)) : MethodCall :=
  ⟨container_client, "create_item", [body], kwargs⟩

/-- Shape discriminator: is this Python value a list object? -/
def PyVal.isList : PyVal → Bool
  | PyVal.list _ => true
  | _ => false

/-- One named parameter of a Python function signature: its name and its
default value when it has one (`Option.none` means the parameter is
required). -/
structure Param where
  name : String
  default : Option PyVal

/-- Named parameters of `cosmos_db_query_items` (source lines 26-32), in
declaration order; `parameters` and `partition_key` default to `None`, the
rest are required.  The trailing `**kwargs` collects all other keywords. -/
def cosmos_db_query_items_params : List Param :=
  [⟨"query", Option.none⟩, ⟨"container", Option.none⟩, ⟨"database", Option.none⟩,
   ⟨"azure_credentials", Option.none⟩, ⟨"parameters", some PyVal.none⟩,
   ⟨"partition_key", some PyVal.none⟩]

/-- Named parameters of `cosmos_db_read_item` (source lines 101-105), in
declaration order; every one of them, `partition_key` included, has no
default.  The trailing `**kwargs` collects all other keywords. -/
def cosmos_db_read_item_params : List Param :=
  [⟨"item", Option.none⟩, ⟨"partition_key", Option.none⟩, ⟨"container", Option.none⟩,
   ⟨"database", Option.none⟩, ⟨"azure_credentials", Option.none⟩]

/-- Named parameters of `cosmos_db_create_item` (source lines 171-174). -/
def cosmos_db_create_item_params : List Param :=
  [⟨"body", Option.none⟩, ⟨"container", Option.none⟩, ⟨"database", Option.none⟩,
   ⟨"azure_credentials", Option.none⟩]

/-- Python call binding for a signature whose extra keywords are collected by
a final catch-all (each wrapper here ends in `**kwargs`): a call with `nPos`
positional arguments and keyword names `kwNames` binds successfully iff there
are at most as many positional arguments as named parameters, no parameter
receives a value both positionally and by keyword, and every parameter
without a default receives a value.  Keyword names matching no parameter land
in the catch-all and never fail the bind. -/
def bindsOkFrom (i nPos : Nat) (kwNames : List String) : List Param → Bool
  | [] => true
  | p :: ps =>
    (if i < nPos then ! kwNames.contains p.name
     else kwNames.contains p.name || p.default.isSome) &&
    bindsOkFrom (i + 1) nPos kwNames ps

/-- Whole-signature binding check: positional arity within bounds and every
parameter bound exactly once (see `bindsOkFrom`). -/
def bindsOk (params : List Param) (nPos : Nat) (kwNames : List String) : Bool :=
  decide (nPos ≤ params.length) && bindsOkFrom 0 nPos kwNames params

/-- Declaration-level facts about a wrapper, read off the source text:
whether the function is declared with `async def`, and whether its body
contains an `await to_thread.run_sync(...)` expression dispatching the frozen
SDK call to the worker thread pool. -/
structure FuncDef where
  isAsync : Bool
  awaitsToThread : Bool

/-- `async def cosmos_db_query_items ...` (line 25), body line 95:
`results = await to_thread.run_sync(query_items)`. -/
def queryItemsDef : FuncDef := ⟨true, true⟩

/-- `async def cosmos_db_read_item ...` (line 100), body line 165:
`result = await to_thread.run_sync(read_item)`. -/
def readItemDef : FuncDef := ⟨true, true⟩

/-- `def cosmos_db_create_item ...` (line 170, declared WITHOUT `async`),
body line 239: `result = await to_thread.run_sync(create_item)`. -/
def createItemDef : FuncDef := ⟨false, true⟩

/-- Python compilation rule: an `await` expression is legal only inside an
`async def`.  A plain `def` whose body contains `await` is a `SyntaxError`
raised when the module is compiled, so such a definition is not a valid
executable definition and no call to it can ever run or complete. -/
def validPython (f : FuncDef) : Bool := ! f.awaitsToThread || f.isAsync

/-- A wrapper dispatches its blocking SDK call to the worker thread pool iff
it is a valid `async def` (so it can run and suspend) whose body awaits
`to_thread.run_sync` on that call; a definition that is not valid Python
never executes, hence never dispatches anything to a worker context. -/
def offloadsToWorker (f : FuncDef) : Bool :=
  validPython f && f.isAsync && f.awaitsToThread

/-- Sequencing for state-passing calls: a raise short-circuits, carrying
the state reached so far; otherwise the continuation receives the value and
the state after the call. -/
def stSeq (x : Except PyExc PyVal × PyVal)
    (f : PyVal → PyVal → Except PyExc PyVal × PyVal) :
    Except PyExc PyVal × PyVal :=
  match x.1 with
  | Except.error e => (Except.error e, x.2)
  | Except.ok v => f v x.2

/-- State-passing rendering of `_get_container_client`, used to express that
the helper leaves the credential state unchanged.  Each external call is
interpreted by `step`, which returns the result of the call together with the
credential state after it.  The helper body itself (lines 18-21) only makes
the three calls in order and binds their results; it assigns to no attribute
of `azure_credentials`, so the credential state changes only where a step
does.  Modelled from the spec: the file `prefect_azure/credentials.py`
defining `CosmosDbAzureCredentials.get_client` is not part of this snapshot;
per the spec the helper and the client constructions it calls have "no side
effects beyond constructing handle objects", which is expressed by the
hypothesis (in the theorem below) that no single step mutates the credential
state. -/
def get_container_client_st
    (step : MethodCall → PyVal → Except PyExc PyVal × PyVal)
    (azure_credentials container database : PyVal) (credState : PyVal) :
    Except PyExc PyVal × PyVal :=
  stSeq (step (credCall azure_credentials) credState) fun cosmos_db_client s1 =>
  stSeq (step (dbCall cosmos_db_client database) s1) fun database_client s2 =>
  step (contCall database_client container) s2

/-- Test environment answering every call with the same opaque object. -/
def envW : Env := ⟨fun _ => Except.ok (PyVal.obj 7)⟩

/-- Test step interpretation answering every call with an opaque object and
leaving the credential state alone. -/
def stepW : MethodCall → PyVal → Except PyExc PyVal × PyVal :=
  fun _ s => (Except.ok (PyVal.obj 7), s)

/-- Test environment in which exactly the calls to the named method raise,
with an opaque service exception, and every other call succeeds. -/
def envFailAt (m : String) : Env :=
  ⟨fun mc =>
    if mc.method == m then Except.error ⟨PyVal.str "CosmosHttpResponseError"⟩
    else Except.ok (PyVal.obj 7)⟩

/-- The opaque service exception raised by `envFailAt`. -/
def excW : PyExc := ⟨PyVal.str "CosmosHttpResponseError"⟩

/-- Test environment whose `query_items` call produces a lazy, unpaginated
iterable object (not a list), as the real SDK does. -/
def envLazy : Env :=
  ⟨fun mc =>
    if mc.method == "query_items" then Except.ok (PyVal.obj 5)
    else Except.ok (PyVal.obj 1)⟩

/-- A raised exception in the first computation short-circuits the sequence
and surfaces unchanged. -/
lemma pySeq_fst_error {α β : Type} (x : Except PyExc α × List MethodCall)
    (f : α → Except PyExc β × List MethodCall) (e : PyExc)
    (h : x.1 = Except.error e) : (pySeq x f).1 = Except.error e := by
  simp only [pySeq, h]

/-- When the first computation succeeds, the sequence runs the continuation
on its value and concatenates the traces. -/
lemma pySeq_eq_of_fst_ok {α β : Type} (x : Except PyExc α × List MethodCall)
    (f : α → Except PyExc β × List MethodCall) (a : α)
    (h : x.1 = Except.ok a) : pySeq x f = ((f a).1, x.2 ++ (f a).2) := by
  simp only [pySeq, h]

/-- Full characterization of the helper when the first two constructions
succeed: the outcome is exactly the response to the third call, and the trace
is the three resolution calls in order. -/
lemma get_container_client_eq (env : Env) (a c d v1 v2 : PyVal)
    (h1 : env.respond (credCall a) = Except.ok v1)
    (h2 : env.respond (dbCall v1 d) = Except.ok v2) :
    get_container_client env a c d =
      (env.respond (contCall v2 c), [credCall a, dbCall v1 d, contCall v2 c]) := by
  have h1b : env.respond ⟨a, "get_client", [], []⟩ = Except.ok v1 := h1
  have h2b : env.respond ⟨v1, "get_database_client", [d], []⟩ = Except.ok v2 := h2
  simp only [get_container_client, pySeq, pyCall, h1b, h2b, credCall, dbCall, contCall]
  rfl

/-- Full characterization of the query wrapper once container resolution
succeeds. -/
lemma cosmos_db_query_items_eq (env : Env)
    (query container database azure_credentials parameters partition_key : PyVal)
    (kwargs : List (String × PyVal)) (cc : PyVal)
    (hres : (get_container_client env azure_credentials container database).1 =
      Except.ok cc) :
    cosmos_db_query_items env query container database azure_credentials
        parameters partition_key kwargs =
      (env.respond (queryCall cc query parameters kwargs),
        (get_container_client env azure_credentials container database).2 ++
          [queryCall cc query parameters kwargs]) := by
  simp only [cosmos_db_query_items]
  rw [pySeq_eq_of_fst_ok _ _ cc hres]
  rfl

/-- Full characterization of the read wrapper once container resolution
succeeds. -/
lemma cosmos_db_read_item_eq (env : Env)
    (item partition_key container database azure_credentials : PyVal)
    (kwargs : List (String × PyVal)) (cc : PyVal)
    (hres : (get_container_client env azure_credentials container database).1 =
      Except.ok cc) :
    cosmos_db_read_item env item partition_key container database
        azure_credentials kwargs =
      (env.respond (readCall cc item partition_key kwargs),
        (get_container_client env azure_credentials container database).2 ++
          [readCall cc item partition_key kwargs]) := by
  simp only [cosmos_db_read_item]
  rw [pySeq_eq_of_fst_ok _ _ cc hres]
  rfl

/-- Full characterization of the create wrapper body once container
resolution succeeds. -/
lemma cosmos_db_create_item_body_eq (env : Env)
    (body container database azure_credentials : PyVal)
    (kwargs : List (String × PyVal)) (cc : PyVal)
    (hres : (get_container_client env azure_credentials container database).1 =
      Except.ok cc) :
    cosmos_db_create_item_body env body container database azure_credentials
        kwargs =
      (env.respond (createCall cc body kwargs),
        (get_container_client env azure_credentials container database).2 ++
          [createCall cc body kwargs]) := by
  simp only [cosmos_db_create_item_body]
  rw [pySeq_eq_of_fst_ok _ _ cc hres]
  rfl

/-- C1: for every environment, query string, parameter value (also the
default `None`), container and database references, credential handle, and
keyword-option map (a valid one, i.e. not re-binding the `parameters`
keyword, which Python rejects as a duplicate at the call site), once
container resolution succeeds with client `cc`, `cosmos_db_query_items`
performs exactly one further call — `query_items` on `cc` with the query as
sole positional argument, the given parameters under the `parameters`
keyword, and the given keyword options — and returns the outcome of that
call unmodified.  The final conjunct records that the signature declares
`parameters` with default `None`, so a caller omitting it reaches the SDK
with `parameters=None`. -/
theorem cosmos_db_query_items_forwards_exactly :
    (∀ (env : Env)
        (query container database azure_credentials parameters partition_key : PyVal)
        (kwargs : List (String × PyVal)) (cc : PyVal),
        kwargs.all (fun kv => ! (kv.1 == "parameters")) = true →
        (get_container_client env azure_credentials container database).1 =
          Except.ok cc →
        cosmos_db_query_items env query container database azure_credentials
            parameters partition_key kwargs =
          (env.respond (queryCall cc query parameters kwargs),
            (get_container_client env azure_credentials container database).2 ++
              [queryCall cc query parameters kwargs])) ∧
    cosmos_db_query_items_params.get? 4 = some ⟨"parameters", some PyVal.none⟩ :=
  ⟨fun env q c d a p pk kw cc _ hres =>
    cosmos_db_query_items_eq env q c d a p pk kw cc hres, rfl⟩

/-- Witness for C1, at the concrete scenario of spec section 8: the query
with one parameter dict and one pass-through keyword option against
container Persons in database SampleDB, under the uniform environment. -/
theorem cosmos_db_query_items_forwards_exactly_witness :
    ([("enable_cross_partition_query", PyVal.int 1)].all
        (fun kv => ! (kv.1 == "parameters")) = true) ∧
    ((get_container_client envW (PyVal.obj 0) (PyVal.str "Persons")
        (PyVal.str "SampleDB")).1 = Except.ok (PyVal.obj 7)) ∧
    cosmos_db_query_items envW (PyVal.str "SELECT * FROM c where c.age >= @age")
        (PyVal.str "Persons") (PyVal.str "SampleDB") (PyVal.obj 0)
        (PyVal.list [PyVal.dict [("name", PyVal.str "@age"), ("value", PyVal.int 44)]])
        PyVal.none [("enable_cross_partition_query", PyVal.int 1)] =
      (envW.respond (queryCall (PyVal.obj 7)
          (PyVal.str "SELECT * FROM c where c.age >= @age")
          (PyVal.list [PyVal.dict [("name", PyVal.str "@age"), ("value", PyVal.int 44)]])
          [("enable_cross_partition_query", PyVal.int 1)]),
        (get_container_client envW (PyVal.obj 0) (PyVal.str "Persons")
            (PyVal.str "SampleDB")).2 ++
          [queryCall (PyVal.obj 7) (PyVal.str "SELECT * FROM c where c.age >= @age")
            (PyVal.list [PyVal.dict [("name", PyVal.str "@age"), ("value", PyVal.int 44)]])
            [("enable_cross_partition_query", PyVal.int 1)]]) :=
  ⟨rfl, rfl,
    cosmos_db_query_items_forwards_exactly.1 envW
      (PyVal.str "SELECT * FROM c where c.age >= @age") (PyVal.str "Persons")
      (PyVal.str "SampleDB") (PyVal.obj 0)
      (PyVal.list [PyVal.dict [("name", PyVal.str "@age"), ("value", PyVal.int 44)]])
      PyVal.none [("enable_cross_partition_query", PyVal.int 1)] (PyVal.obj 7)
      rfl rfl⟩

/-- C9: the `partition_key` parameter of `cosmos_db_query_items` is accepted
but never forwarded: two invocations that differ only in it make the same
underlying calls with identical arguments and produce identical outcomes and
traces.  (It is not even logged: the log line at source line 89 mentions
only the container and the database.) -/
theorem cosmos_db_query_items_partition_key_no_effect (env : Env)
    (query container database azure_credentials parameters pk1 pk2 : PyVal)
    (kwargs : List (String × PyVal)) :
    cosmos_db_query_items env query container database azure_credentials
        parameters pk1 kwargs =
      cosmos_db_query_items env query container database azure_credentials
        parameters pk2 kwargs := rfl

/-- C2: `cosmos_db_create_item` does not dispatch its blocking service call
to a separate worker context — declared `def` without `async` (line 170),
its `await` of the worker dispatch is not executable Python, so no dispatch
ever happens — whereas `cosmos_db_query_items` and `cosmos_db_read_item`
are valid `async def` functions whose bodies await `to_thread.run_sync`,
dispatching their blocking SDK calls to the worker thread pool so the
calling cooperative context is not blocked. -/
theorem worker_offload_asymmetry :
    offloadsToWorker createItemDef = false ∧
    offloadsToWorker queryItemsDef = true ∧
    offloadsToWorker readItemDef = true :=
  ⟨rfl, rfl, rfl⟩

/-- C10: `cosmos_db_create_item` is declared as a plain synchronous `def`
(line 170) while its body contains `await to_thread.run_sync(create_item)`
(line 239); an `await` outside `async def` is a `SyntaxError`, so the
declaration is not a valid executable definition and no invocation of it
can ever run or complete. -/
theorem create_item_sync_def_contains_await :
    createItemDef.isAsync = false ∧ createItemDef.awaitsToThread = true ∧
    validPython createItemDef = false :=
  ⟨rfl, rfl, rfl⟩

/-- C6: divergence record for the create operation.  The body text of
`cosmos_db_create_item` denotes exactly the forwarding the claim describes:
at the failing input — an item body with an id, container Persons, database
SampleDB, the uniform environment — it would perform the `create_item` call
with the body as sole positional argument and no other keywords, and return
the newly created record unmodified.  But the declaration is not valid
Python (a plain `def` whose body awaits the worker dispatch), so the
function can never run and never returns the created record. -/
theorem create_item_claim_vs_code :
    cosmos_db_create_item_body envW
        (PyVal.dict [("id", PyVal.str "0001"), ("firstname", PyVal.str "Olivia"),
          ("age", PyVal.int 3)])
        (PyVal.str "Persons") (PyVal.str "SampleDB") (PyVal.obj 0) [] =
      (Except.ok (PyVal.obj 7),
        [credCall (PyVal.obj 0), dbCall (PyVal.obj 7) (PyVal.str "SampleDB"),
          contCall (PyVal.obj 7) (PyVal.str "Persons"),
          createCall (PyVal.obj 7)
            (PyVal.dict [("id", PyVal.str "0001"), ("firstname", PyVal.str "Olivia"),
              ("age", PyVal.int 3)]) []]) ∧
    validPython createItemDef = false :=
  ⟨rfl, rfl⟩

/-- C3: once container resolution succeeds with client `cc`,
`cosmos_db_read_item` performs exactly one further call — `read_item` on
`cc` with the item and the partition key as its two positional arguments and
the keyword options passed through — and returns the outcome of that call
unmodified.  Moreover `partition_key` is the second parameter of the
signature with no default, so any call binding that supplies no partition
key (fewer than two positional arguments and no `partition_key` keyword)
fails the call contract. -/
theorem cosmos_db_read_item_forwards_and_requires_partition_key :
    (∀ (env : Env) (item partition_key container database azure_credentials : PyVal)
        (kwargs : List (String × PyVal)) (cc : PyVal),
        (get_container_client env azure_credentials container database).1 =
          Except.ok cc →
        cosmos_db_read_item env item partition_key container database
            azure_credentials kwargs =
          (env.respond (readCall cc item partition_key kwargs),
            (get_container_client env azure_credentials container database).2 ++
              [readCall cc item partition_key kwargs])) ∧
    cosmos_db_read_item_params.get? 1 = some ⟨"partition_key", Option.none⟩ ∧
    (∀ (nPos : Nat) (kwNames : List String),
        nPos ≤ 1 → kwNames.contains "partition_key" = false →
        bindsOk cosmos_db_read_item_params nPos kwNames = false) := by
  refine ⟨fun env i pk c d a kw cc hres =>
    cosmos_db_read_item_eq env i pk c d a kw cc hres, rfl, ?_⟩
  intro nPos kwNames h1 h2
  have h2m : "partition_key" ∉ kwNames := by simpa using h2
  have h0 : nPos = 0 ∨ nPos = 1 := by omega
  rcases h0 with h0 | h0 <;> subst h0 <;>
    simp [bindsOk, bindsOkFrom, cosmos_db_read_item_params, h2m]

/-- Witness for C3: a concrete read with everything supplied, plus a call
binding with a single positional argument and no keywords, which fails. -/
theorem cosmos_db_read_item_forwards_witness :
    ((get_container_client envW (PyVal.obj 0) (PyVal.str "container")
        (PyVal.str "database")).1 = Except.ok (PyVal.obj 7)) ∧
    cosmos_db_read_item envW (PyVal.str "item") (PyVal.str "partition_key")
        (PyVal.str "container") (PyVal.str "database") (PyVal.obj 0) [] =
      (envW.respond (readCall (PyVal.obj 7) (PyVal.str "item")
          (PyVal.str "partition_key") []),
        (get_container_client envW (PyVal.obj 0) (PyVal.str "container")
            (PyVal.str "database")).2 ++
          [readCall (PyVal.obj 7) (PyVal.str "item") (PyVal.str "partition_key") []]) ∧
    (1 ≤ 1 ∧ ([] : List String).contains "partition_key" = false ∧
      bindsOk cosmos_db_read_item_params 1 [] = false) :=
  ⟨rfl,
    cosmos_db_read_item_forwards_and_requires_partition_key.1 envW
      (PyVal.str "item") (PyVal.str "partition_key") (PyVal.str "container")
      (PyVal.str "database") (PyVal.obj 0) [] (PyVal.obj 7) rfl,
    le_refl 1, rfl,
    cosmos_db_read_item_forwards_and_requires_partition_key.2.2 1 []
      (le_refl 1) rfl⟩

/-- C4: no operation catches, translates, classifies, or retries a failure.
An exception raised by any of the underlying calls — the credential client
construction, the database client construction, the container client
construction, or the service operation itself — surfaces as the outcome of
the helper and of each operation body exactly as raised, with no other
exception substituted.  The nine conjuncts cover, in order: the three raise
points inside the helper; a resolution failure and a `query_items` failure
in the query operation; the same two for the read operation; and the same
two for the create operation body. -/
theorem errors_propagate_unwrapped :
    (∀ (env : Env) (a c d : PyVal) (e : PyExc),
        env.respond (credCall a) = Except.error e →
        (get_container_client env a c d).1 = Except.error e) ∧
    (∀ (env : Env) (a c d v1 : PyVal) (e : PyExc),
        env.respond (credCall a) = Except.ok v1 →
        env.respond (dbCall v1 d) = Except.error e →
        (get_container_client env a c d).1 = Except.error e) ∧
    (∀ (env : Env) (a c d v1 v2 : PyVal) (e : PyExc),
        env.respond (credCall a) = Except.ok v1 →
        env.respond (dbCall v1 d) = Except.ok v2 →
        env.respond (contCall v2 c) = Except.error e →
        (get_container_client env a c d).1 = Except.error e) ∧
    (∀ (env : Env) (q c d a p pk : PyVal) (kw : List (String × PyVal)) (e : PyExc),
        (get_container_client env a c d).1 = Except.error e →
        (cosmos_db_query_items env q c d a p pk kw).1 = Except.error e) ∧
    (∀ (env : Env) (q c d a p pk cc : PyVal) (kw : List (String × PyVal)) (e : PyExc),
        (get_container_client env a c d).1 = Except.ok cc →
        env.respond (queryCall cc q p kw) = Except.error e →
        (cosmos_db_query_items env q c d a p pk kw).1 = Except.error e) ∧
    (∀ (env : Env) (i pk c d a : PyVal) (kw : List (String × PyVal)) (e : PyExc),
        (get_container_client env a c d).1 = Except.error e →
        (cosmos_db_read_item env i pk c d a kw).1 = Except.error e) ∧
    (∀ (env : Env) (i pk c d a cc : PyVal) (kw : List (String × PyVal)) (e : PyExc),
        (get_container_client env a c d).1 = Except.ok cc →
        env.respond (readCall cc i pk kw) = Except.error e →
        (cosmos_db_read_item env i pk c d a kw).1 = Except.error e) ∧
    (∀ (env : Env) (b c d a : PyVal) (kw : List (String × PyVal)) (e : PyExc),
        (get_container_client env a c d).1 = Except.error e →
        (cosmos_db_create_item_body env b c d a kw).1 = Except.error e) ∧
    (∀ (env : Env) (b c d a cc : PyVal) (kw : List (String × PyVal)) (e : PyExc),
        (get_container_client env a c d).1 = Except.ok cc →
        env.respond (createCall cc b kw) = Except.error e →
        (cosmos_db_create_item_body env b c d a kw).1 = Except.error e) := by
  refine ⟨?_, ?_, ?_, ?_, ?_, ?_, ?_, ?_, ?_⟩
  · intro env a c d e h
    exact pySeq_fst_error _ _ e h
  · intro env a c d v1 e h1 h2
    unfold get_container_client
    rw [pySeq_eq_of_fst_ok (pyCall env a "get_client" [] []) _ v1 h1]
    exact pySeq_fst_error _ _ e h2
  · intro env a c d v1 v2 e h1 h2 h3
    rw [get_container_client_eq env a c d v1 v2 h1 h2]
    exact h3
  · intro env q c d a p pk kw e h
    exact pySeq_fst_error _ _ e h
  · intro env q c d a p pk cc kw e hres h2
    rw [cosmos_db_query_items_eq env q c d a p pk kw cc hres]
    exact h2
  · intro env i pk c d a kw e h
    exact pySeq_fst_error _ _ e h
  · intro env i pk c d a cc kw e hres h2
    rw [cosmos_db_read_item_eq env i pk c d a kw cc hres]
    exact h2
  · intro env b c d a kw e h
    exact pySeq_fst_error _ _ e h
  · intro env b c d a cc kw e hres h2
    rw [cosmos_db_create_item_body_eq env b c d a kw cc hres]
    exact h2

/-- Witness for C4: environments in which exactly one underlying call
raises, one per raise point, with the opaque service exception surfacing
unchanged from the helper and from each operation body. -/
theorem errors_propagate_unwrapped_witness :
    ((envFailAt "get_client").respond (credCall (PyVal.obj 0)) =
      Except.error excW ∧
     (get_container_client (envFailAt "get_client") (PyVal.obj 0)
        (PyVal.str "Persons") (PyVal.str "SampleDB")).1 = Except.error excW) ∧
    ((get_container_client (envFailAt "get_database_client") (PyVal.obj 0)
        (PyVal.str "Persons") (PyVal.str "SampleDB")).1 = Except.error excW) ∧
    ((get_container_client (envFailAt "get_container_client") (PyVal.obj 0)
        (PyVal.str "Persons") (PyVal.str "SampleDB")).1 = Except.error excW) ∧
    ((cosmos_db_query_items (envFailAt "get_client") (PyVal.str "SELECT * FROM c")
        (PyVal.str "Persons") (PyVal.str "SampleDB") (PyVal.obj 0) PyVal.none
        PyVal.none []).1 = Except.error excW) ∧
    ((cosmos_db_query_items (envFailAt "query_items") (PyVal.str "SELECT * FROM c")
        (PyVal.str "Persons") (PyVal.str "SampleDB") (PyVal.obj 0) PyVal.none
        PyVal.none []).1 = Except.error excW) ∧
    ((cosmos_db_read_item (envFailAt "get_client") (PyVal.str "item")
        (PyVal.str "pk") (PyVal.str "Persons") (PyVal.str "SampleDB")
        (PyVal.obj 0) []).1 = Except.error excW) ∧
    ((cosmos_db_read_item (envFailAt "read_item") (PyVal.str "item")
        (PyVal.str "pk") (PyVal.str "Persons") (PyVal.str "SampleDB")
        (PyVal.obj 0) []).1 = Except.error excW) ∧
    ((cosmos_db_create_item_body (envFailAt "get_client")
        (PyVal.dict [("id", PyVal.str "1")]) (PyVal.str "Persons")
        (PyVal.str "SampleDB") (PyVal.obj 0) []).1 = Except.error excW) ∧
    ((cosmos_db_create_item_body (envFailAt "create_item")
        (PyVal.dict [("id", PyVal.str "1")]) (PyVal.str "Persons")
        (PyVal.str "SampleDB") (PyVal.obj 0) []).1 = Except.error excW) :=
  ⟨⟨rfl,
    errors_propagate_unwrapped.1 (envFailAt "get_client") (PyVal.obj 0)
      (PyVal.str "Persons") (PyVal.str "SampleDB") excW rfl⟩,
   errors_propagate_unwrapped.2.1 (envFailAt "get_database_client") (PyVal.obj 0)
     (PyVal.str "Persons") (PyVal.str "SampleDB") (PyVal.obj 7) excW rfl rfl,
   errors_propagate_unwrapped.2.2.1 (envFailAt "get_container_client") (PyVal.obj 0)
     (PyVal.str "Persons") (PyVal.str "SampleDB") (PyVal.obj 7) (PyVal.obj 7) excW
     rfl rfl rfl,
   errors_propagate_unwrapped.2.2.2.1 (envFailAt "get_client")
     (PyVal.str "SELECT * FROM c") (PyVal.str "Persons") (PyVal.str "SampleDB")
     (PyVal.obj 0) PyVal.none PyVal.none [] excW rfl,
   errors_propagate_unwrapped.2.2.2.2.1 (envFailAt "query_items")
     (PyVal.str "SELECT * FROM c") (PyVal.str "Persons") (PyVal.str "SampleDB")
     (PyVal.obj 0) PyVal.none PyVal.none (PyVal.obj 7) [] excW rfl rfl,
   errors_propagate_unwrapped.2.2.2.2.2.1 (envFailAt "get_client")
     (PyVal.str "item") (PyVal.str "pk") (PyVal.str "Persons")
     (PyVal.str "SampleDB") (PyVal.obj 0) [] excW rfl,
   errors_propagate_unwrapped.2.2.2.2.2.2.1 (envFailAt "read_item")
     (PyVal.str "item") (PyVal.str "pk") (PyVal.str "Persons")
     (PyVal.str "SampleDB") (PyVal.obj 0) (PyVal.obj 7) [] excW rfl rfl,
   errors_propagate_unwrapped.2.2.2.2.2.2.2.1 (envFailAt "get_client")
     (PyVal.dict [("id", PyVal.str "1")]) (PyVal.str "Persons")
     (PyVal.str "SampleDB") (PyVal.obj 0) [] excW rfl,
   errors_propagate_unwrapped.2.2.2.2.2.2.2.2 (envFailAt "create_item")
     (PyVal.dict [("id", PyVal.str "1")]) (PyVal.str "Persons")
     (PyVal.str "SampleDB") (PyVal.obj 0) (PyVal.obj 7) [] excW rfl rfl⟩

/-- C5 counterexample: under `envLazy`, whose `query_items` call produces a
lazy iterable object (the real SDK returns a lazy `ItemPaged`, not a list),
the spec section 8 example query returns that object itself — `PyVal.obj 5`,
which is not a list value — so the layer does not return the full result
collection as a list when the SDK call produces a lazy result object. -/
theorem cosmos_db_query_items_lazy_counterexample :
    (cosmos_db_query_items envLazy (PyVal.str "SELECT * FROM c where c.age >= @age")
        (PyVal.str "Persons") (PyVal.str "SampleDB") (PyVal.obj 0)
        (PyVal.list [PyVal.dict [("name", PyVal.str "@age"), ("value", PyVal.int 44)]])
        PyVal.none []).1 = Except.ok (PyVal.obj 5) ∧
    PyVal.isList (PyVal.obj 5) = false :=
  ⟨rfl, rfl⟩

/-- C5 as amended: once the three resolution constructions succeed, the
query wrapper returns exactly whatever object the single SDK `query_items`
call produces — lazy or not, with no conversion applied — and performs no
pagination: its trace contains exactly one `query_items` call, and that call
is the last thing the invocation does. -/
theorem cosmos_db_query_items_returns_sdk_object_unpaginated :
    ∀ (env : Env)
      (query container database azure_credentials parameters partition_key
        v1 v2 cc : PyVal) (kwargs : List (String × PyVal)),
      env.respond (credCall azure_credentials) = Except.ok v1 →
      env.respond (dbCall v1 database) = Except.ok v2 →
      env.respond (contCall v2 container) = Except.ok cc →
      ((cosmos_db_query_items env query container database azure_credentials
          parameters partition_key kwargs).1 =
        env.respond (queryCall cc query parameters kwargs) ∧
       (cosmos_db_query_items env query container database azure_credentials
          parameters partition_key kwargs).2.countP
            (fun mc => mc.method == "query_items") = 1 ∧
       (cosmos_db_query_items env query container database azure_credentials
          parameters partition_key kwargs).2.getLast? =
         some (queryCall cc query parameters kwargs)) := by
  intro env q c d a p pk v1 v2 cc kw h1 h2 h3
  have hg := get_container_client_eq env a c d v1 v2 h1 h2
  have hres : (get_container_client env a c d).1 = Except.ok cc := by
    rw [hg]; exact h3
  have he := cosmos_db_query_items_eq env q c d a p pk kw cc hres
  rw [he, hg]
  have e1 : (("get_client" : String) == "query_items") = false := by decide
  have e2 : (("get_database_client" : String) == "query_items") = false := by decide
  have e3 : (("get_container_client" : String) == "query_items") = false := by decide
  have e4 : (("query_items" : String) == "query_items") = true := by decide
  refine ⟨rfl, ?_, ?_⟩
  · simp [List.countP_cons, List.countP_nil, credCall, dbCall, contCall,
      queryCall, e1, e2, e3, e4]
  · simp [List.getLast?, credCall, dbCall, contCall, queryCall]

/-- Witness for C5 as amended, at the lazy environment: the resolution steps
succeed with handle 1, the single `query_items` call answers with the lazy
object 5, and the wrapper hands that object back. -/
theorem cosmos_db_query_items_unpaginated_witness :
    (envLazy.respond (credCall (PyVal.obj 0)) = Except.ok (PyVal.obj 1) ∧
     envLazy.respond (dbCall (PyVal.obj 1) (PyVal.str "SampleDB")) =
       Except.ok (PyVal.obj 1) ∧
     envLazy.respond (contCall (PyVal.obj 1) (PyVal.str "Persons")) =
       Except.ok (PyVal.obj 1)) ∧
    ((cosmos_db_query_items envLazy (PyVal.str "SELECT * FROM c")
        (PyVal.str "Persons") (PyVal.str "SampleDB") (PyVal.obj 0) PyVal.none
        PyVal.none []).1 =
      envLazy.respond (queryCall (PyVal.obj 1) (PyVal.str "SELECT * FROM c")
        PyVal.none []) ∧
     (cosmos_db_query_items envLazy (PyVal.str "SELECT * FROM c")
        (PyVal.str "Persons") (PyVal.str "SampleDB") (PyVal.obj 0) PyVal.none
        PyVal.none []).2.countP (fun mc => mc.method == "query_items") = 1 ∧
     (cosmos_db_query_items envLazy (PyVal.str "SELECT * FROM c")
        (PyVal.str "Persons") (PyVal.str "SampleDB") (PyVal.obj 0) PyVal.none
        PyVal.none []).2.getLast? =
       some (queryCall (PyVal.obj 1) (PyVal.str "SELECT * FROM c")
         PyVal.none [])) :=
  ⟨⟨rfl, rfl, rfl⟩,
    cosmos_db_query_items_returns_sdk_object_unpaginated envLazy
      (PyVal.str "SELECT * FROM c") (PyVal.str "Persons") (PyVal.str "SampleDB")
      (PyVal.obj 0) PyVal.none PyVal.none (PyVal.obj 1) (PyVal.obj 1)
      (PyVal.obj 1) [] rfl rfl rfl⟩

/-- State-preservation of a state-passing sequence: when the first call left
the state at `s` and the continuation preserves whatever state it is started
from, the whole sequence ends at `s`, on the raising path as well as the
succeeding one. -/
lemma stSeq_preserves (x : Except PyExc PyVal × PyVal)
    (f : PyVal → PyVal → Except PyExc PyVal × PyVal) (s : PyVal)
    (hx : x.2 = s) (hf : ∀ v, (f v x.2).2 = x.2) :
    (stSeq x f).2 = s := by
  cases h : x.1 with
  | error e => simp [stSeq, h, hx]
  | ok v => rw [← hx]; simpa [stSeq, h] using hf v

/-- C7: the helper accepts any credential, container, and database values —
the three reference shapes of the Union-typed source parameters are the
`PyVal.str` (plain name), `PyVal.dict` (property mapping), and `PyVal.obj`
(resolved proxy) cases of the value type, all covered by the quantifiers —
and forwards them opaquely: the database value is passed verbatim as the
sole argument of `get_database_client`, the container value verbatim as the
sole argument of `get_container_client`, and the outcome is the third
response unmodified.  And the helper leaves the credential state unchanged:
interpreting its three calls with any state-passing `step` in which no
single call mutates the credential state (per the spec the credential is
opaque and client construction has no side effects beyond constructing
handle objects; `credentials.py` itself is outside this snapshot), the
state after the helper equals the state before, on every path. -/
theorem container_resolution_opaque_and_cred_preserving :
    (∀ (env : Env) (a c d v1 v2 : PyVal),
        env.respond (credCall a) = Except.ok v1 →
        env.respond (dbCall v1 d) = Except.ok v2 →
        get_container_client env a c d =
          (env.respond (contCall v2 c),
            [credCall a, dbCall v1 d, contCall v2 c])) ∧
    (∀ (step : MethodCall → PyVal → Except PyExc PyVal × PyVal)
        (a c d credState : PyVal),
        (∀ mc s, (step mc s).2 = s) →
        (get_container_client_st step a c d credState).2 = credState) := by
  refine ⟨fun env a c d v1 v2 h1 h2 =>
    get_container_client_eq env a c d v1 v2 h1 h2, ?_⟩
  intro step a c d s hstep
  unfold get_container_client_st
  refine stSeq_preserves _ _ s (hstep (credCall a) s) ?_
  intro v1
  refine stSeq_preserves _ _ _ (hstep (dbCall v1 d) _) ?_
  intro v2
  exact hstep (contCall v2 c) _

/-- Witness for C7: the helper applied to each of the three container
reference shapes — a plain name, a property mapping, and a resolved proxy
handle — forwarding each verbatim, and a state-passing run whose credential
state is returned untouched. -/
theorem container_resolution_witness :
    (envW.respond (credCall (PyVal.obj 0)) = Except.ok (PyVal.obj 7) ∧
     envW.respond (dbCall (PyVal.obj 7) (PyVal.str "SampleDB")) =
       Except.ok (PyVal.obj 7)) ∧
    get_container_client envW (PyVal.obj 0) (PyVal.str "Persons")
        (PyVal.str "SampleDB") =
      (envW.respond (contCall (PyVal.obj 7) (PyVal.str "Persons")),
        [credCall (PyVal.obj 0), dbCall (PyVal.obj 7) (PyVal.str "SampleDB"),
          contCall (PyVal.obj 7) (PyVal.str "Persons")]) ∧
    get_container_client envW (PyVal.obj 0)
        (PyVal.dict [("id", PyVal.str "Persons")]) (PyVal.str "SampleDB") =
      (envW.respond (contCall (PyVal.obj 7)
          (PyVal.dict [("id", PyVal.str "Persons")])),
        [credCall (PyVal.obj 0), dbCall (PyVal.obj 7) (PyVal.str "SampleDB"),
          contCall (PyVal.obj 7) (PyVal.dict [("id", PyVal.str "Persons")])]) ∧
    get_container_client envW (PyVal.obj 0) (PyVal.obj 3)
        (PyVal.str "SampleDB") =
      (envW.respond (contCall (PyVal.obj 7) (PyVal.obj 3)),
        [credCall (PyVal.obj 0), dbCall (PyVal.obj 7) (PyVal.str "SampleDB"),
          contCall (PyVal.obj 7) (PyVal.obj 3)]) ∧
    (get_container_client_st stepW (PyVal.obj 0) (PyVal.str "Persons")
        (PyVal.str "SampleDB") (PyVal.str "conn")).2 = PyVal.str "conn" :=
  ⟨⟨rfl, rfl⟩,
    container_resolution_opaque_and_cred_preserving.1 envW (PyVal.obj 0)
      (PyVal.str "Persons") (PyVal.str "SampleDB") (PyVal.obj 7) (PyVal.obj 7)
      rfl rfl,
    container_resolution_opaque_and_cred_preserving.1 envW (PyVal.obj 0)
      (PyVal.dict [("id", PyVal.str "Persons")]) (PyVal.str "SampleDB")
      (PyVal.obj 7) (PyVal.obj 7) rfl rfl,
    container_resolution_opaque_and_cred_preserving.1 envW (PyVal.obj 0)
      (PyVal.obj 3) (PyVal.str "SampleDB") (PyVal.obj 7) (PyVal.obj 7) rfl rfl,
    container_resolution_opaque_and_cred_preserving.2 stepW (PyVal.obj 0)
      (PyVal.str "Persons") (PyVal.str "SampleDB") (PyVal.str "conn")
      (fun _ _ => rfl)⟩

/-- C8: every invocation of each of the three operations re-resolves its
container handle through the helper: once the first two constructions
succeed, the first three calls of the invocation are exactly `get_client` on
the credential, then `get_database_client`, then `get_container_client`, in
that order — and the invocation performs exactly one `get_client` call, a
fresh resolution rather than a reused handle.  The embedding of each
operation is a pure function of the environment and the arguments — the
layer has no state component at all — so nothing is retained between calls
and the same resolution sequence recurs on every invocation. -/
theorem fresh_resolution_every_call :
    (∀ (env : Env) (q c d a p pk v1 v2 : PyVal) (kw : List (String × PyVal)),
        env.respond (credCall a) = Except.ok v1 →
        env.respond (dbCall v1 d) = Except.ok v2 →
        ((cosmos_db_query_items env q c d a p pk kw).2.take 3 =
            [credCall a, dbCall v1 d, contCall v2 c] ∧
          (cosmos_db_query_items env q c d a p pk kw).2.countP
            (fun mc => mc.method == "get_client") = 1)) ∧
    (∀ (env : Env) (i pk c d a v1 v2 : PyVal) (kw : List (String × PyVal)),
        env.respond (credCall a) = Except.ok v1 →
        env.respond (dbCall v1 d) = Except.ok v2 →
        ((cosmos_db_read_item env i pk c d a kw).2.take 3 =
            [credCall a, dbCall v1 d, contCall v2 c] ∧
          (cosmos_db_read_item env i pk c d a kw).2.countP
            (fun mc => mc.method == "get_client") = 1)) ∧
    (∀ (env : Env) (b c d a v1 v2 : PyVal) (kw : List (String × PyVal)),
        env.respond (credCall a) = Except.ok v1 →
        env.respond (dbCall v1 d) = Except.ok v2 →
        ((cosmos_db_create_item_body env b c d a kw).2.take 3 =
            [credCall a, dbCall v1 d, contCall v2 c] ∧
          (cosmos_db_create_item_body env b c d a kw).2.countP
            (fun mc => mc.method == "get_client") = 1)) := by
  have g1 : (("get_client" : String) == "get_client") = true := by decide
  have g2 : (("get_database_client" : String) == "get_client") = false := by decide
  have g3 : (("get_container_client" : String) == "get_client") = false := by decide
  have g4 : (("query_items" : String) == "get_client") = false := by decide
  have g5 : (("read_item" : String) == "get_client") = false := by decide
  have g6 : (("create_item" : String) == "get_client") = false := by decide
  refine ⟨?_, ?_, ?_⟩
  · intro env q c d a p pk v1 v2 kw h1 h2
    have hg := get_container_client_eq env a c d v1 v2 h1 h2
    cases h3 : env.respond (contCall v2 c) with
    | error e =>
      have hq : cosmos_db_query_items env q c d a p pk kw =
          (Except.error e, [credCall a, dbCall v1 d, contCall v2 c]) := by
        unfold cosmos_db_query_items
        rw [hg]
        simp [pySeq, h3]
      rw [hq]
      exact ⟨rfl, by
        simp [List.countP_cons, List.countP_nil, credCall, dbCall, contCall,
          g1, g2, g3]⟩
    | ok cc =>
      have hres : (get_container_client env a c d).1 = Except.ok cc := by
        rw [hg]; exact h3
      rw [cosmos_db_query_items_eq env q c d a p pk kw cc hres, hg]
      exact ⟨rfl, by
        simp [List.countP_cons, List.countP_nil, credCall, dbCall, contCall,
          queryCall, g1, g2, g3, g4]⟩
  · intro env i pk c d a v1 v2 kw h1 h2
    have hg := get_container_client_eq env a c d v1 v2 h1 h2
    cases h3 : env.respond (contCall v2 c) with
    | error e =>
      have hr : cosmos_db_read_item env i pk c d a kw =
          (Except.error e, [credCall a, dbCall v1 d, contCall v2 c]) := by
        unfold cosmos_db_read_item
        rw [hg]
        simp [pySeq, h3]
      rw [hr]
      exact ⟨rfl, by
        simp [List.countP_cons, List.countP_nil, credCall, dbCall, contCall,
          g1, g2, g3]⟩
    | ok cc =>
      have hres : (get_container_client env a c d).1 = Except.ok cc := by
        rw [hg]; exact h3
      rw [cosmos_db_read_item_eq env i pk c d a kw cc hres, hg]
      exact ⟨rfl, by
        simp [List.countP_cons, List.countP_nil, credCall, dbCall, contCall,
          readCall, g1, g2, g3, g5]⟩
  · intro env b c d a v1 v2 kw h1 h2
    have hg := get_container_client_eq env a c d v1 v2 h1 h2
    cases h3 : env.respond (contCall v2 c) with
    | error e =>
      have hc : cosmos_db_create_item_body env b c d a kw =
          (Except.error e, [credCall a, dbCall v1 d, contCall v2 c]) := by
        unfold cosmos_db_create_item_body
        rw [hg]
        simp [pySeq, h3]
      rw [hc]
      exact ⟨rfl, by
        simp [List.countP_cons, List.countP_nil, credCall, dbCall, contCall,
          g1, g2, g3]⟩
    | ok cc =>
      have hres : (get_container_client env a c d).1 = Except.ok cc := by
        rw [hg]; exact h3
      rw [cosmos_db_create_item_body_eq env b c d a kw cc hres, hg]
      exact ⟨rfl, by
        simp [List.countP_cons, List.countP_nil, credCall, dbCall, contCall,
          createCall, g1, g2, g3, g6]⟩

/-- Witness for C8: each of the three operations, run once under the uniform
environment, opens with the three-step resolution and performs exactly one
`get_client` call. -/
theorem fresh_resolution_every_call_witness :
    (envW.respond (credCall (PyVal.obj 0)) = Except.ok (PyVal.obj 7) ∧
     envW.respond (dbCall (PyVal.obj 7) (PyVal.str "SampleDB")) =
       Except.ok (PyVal.obj 7)) ∧
    ((cosmos_db_query_items envW (PyVal.str "SELECT * FROM c")
        (PyVal.str "Persons") (PyVal.str "SampleDB") (PyVal.obj 0) PyVal.none
        PyVal.none []).2.take 3 =
      [credCall (PyVal.obj 0), dbCall (PyVal.obj 7) (PyVal.str "SampleDB"),
        contCall (PyVal.obj 7) (PyVal.str "Persons")] ∧
     (cosmos_db_query_items envW (PyVal.str "SELECT * FROM c")
        (PyVal.str "Persons") (PyVal.str "SampleDB") (PyVal.obj 0) PyVal.none
        PyVal.none []).2.countP (fun mc => mc.method == "get_client") = 1) ∧
    ((cosmos_db_read_item envW (PyVal.str "item") (PyVal.str "pk")
        (PyVal.str "Persons") (PyVal.str "SampleDB") (PyVal.obj 0) []).2.take 3 =
      [credCall (PyVal.obj 0), dbCall (PyVal.obj 7) (PyVal.str "SampleDB"),
        contCall (PyVal.obj 7) (PyVal.str "Persons")] ∧
     (cosmos_db_read_item envW (PyVal.str "item") (PyVal.str "pk")
        (PyVal.str "Persons") (PyVal.str "SampleDB") (PyVal.obj 0)
        []).2.countP (fun mc => mc.method == "get_client") = 1) ∧
    ((cosmos_db_create_item_body envW (PyVal.dict [("id", PyVal.str "1")])
        (PyVal.str "Persons") (PyVal.str "SampleDB") (PyVal.obj 0) []).2.take 3 =
      [credCall (PyVal.obj 0), dbCall (PyVal.obj 7) (PyVal.str "SampleDB"),
        contCall (PyVal.obj 7) (PyVal.str "Persons")] ∧
     (cosmos_db_create_item_body envW (PyVal.dict [("id", PyVal.str "1")])
        (PyVal.str "Persons") (PyVal.str "SampleDB") (PyVal.obj 0)
        []).2.countP (fun mc => mc.method == "get_client") = 1) :=
  ⟨⟨rfl, rfl⟩,
    fresh_resolution_every_call.1 envW (PyVal.str "SELECT * FROM c")
      (PyVal.str "Persons") (PyVal.str "SampleDB") (PyVal.obj 0) PyVal.none
      PyVal.none (PyVal.obj 7) (PyVal.obj 7) [] rfl rfl,
    fresh_resolution_every_call.2.1 envW (PyVal.str "item") (PyVal.str "pk")
      (PyVal.str "Persons") (PyVal.str "SampleDB") (PyVal.obj 0) (PyVal.obj 7)
      (PyVal.obj 7) [] rfl rfl,
    fresh_resolution_every_call.2.2 envW (PyVal.dict [("id", PyVal.str "1")])
      (PyVal.str "Persons") (PyVal.str "SampleDB") (PyVal.obj 0) (PyVal.obj 7)
      (PyVal.obj 7) [] rfl rfl⟩
